import Mathlib

/-!
Verification development for the RN2903 serial-command wrapper (`rn2903.py`).

The Python module is shallowly embedded below:

* Strings are Lean `String`s; Python's whitespace `str.split()` and
  separator `str.split(' ')` are modelled on the underlying character
  lists (`splitWs`, `splitSepChars`).
* The command specification tree (`rn2903.commands`, a nested dict) is
  the inductive `CmdNode`; dict-key lookup is association-list lookup.
* `check_param` and `validate_command` are translated branch by branch.
  `validate_command` returns a `VResult`: `.ok s` models returning the
  canonical string `s`, `.err` models `return False`, and `.crash`
  models an uncaught Python exception (an `IndexError` on `cmd_set[1]`
  is reachable for inputs that contain a space but split to fewer than
  two tokens).
* The serial transport is modelled by a `World`: a script of outcomes
  for successive transport writes (`writeScript`, exhausted script means
  success), a script of outcomes for successive `read_response` calls
  (`readScript`, exhausted script means the read times out and returns
  the empty line, `.pyFalse` entries model a read exception), and a
  trace `writes` of the byte strings handed to the serial `write` call.
  `read_response`'s internal byte loop is abstracted to its observable
  result: the terminator-stripped line (or `False` on a read error).
* Python values that can be either `False` or a string (the elements of
  `send_command`'s result pair, the entries of a read script) are `PyV`.
* `send_command`, `get_device_config` and `put_device_config` are
  translated branch by branch; `.exn`/`none` components model uncaught
  Python exceptions.
-/

namespace RN2903

/-! ## Python string primitives -/

/-- Characters of a string. -/
def chars (s : String) : List Char := s.data

/-- Python `str.lower()` (ASCII range, which covers every token the
command tree can accept). -/
def pyLower (s : String) : String := ⟨s.data.map Char.toLower⟩

/-- Auxiliary for Python whitespace `str.split()`: accumulates the
current token (reversed) and splits at whitespace, dropping empties. -/
def splitWsAux : List Char → List Char → List (List Char)
  | [], acc => if acc.isEmpty then [] else [acc.reverse]
  | c :: cs, acc =>
    if c.isWhitespace then
      if acc.isEmpty then splitWsAux cs [] else acc.reverse :: splitWsAux cs []
    else splitWsAux cs (c :: acc)

/-- Python `str.split()` (no argument): split on whitespace runs,
dropping empty tokens. -/
def pySplit (s : String) : List String := (splitWsAux s.data []).map fun cs => ⟨cs⟩

/-- Auxiliary for Python `str.split(sep)`: keeps empty tokens. -/
def splitSepChars (sep : Char) : List Char → List Char → List String
  | [], acc => [⟨acc.reverse⟩]
  | c :: cs, acc =>
    if c = sep then (⟨acc.reverse⟩ : String) :: splitSepChars sep cs []
    else splitSepChars sep cs (c :: acc)

/-- Python `str.split(' ')` (explicit separator, keeping empties). -/
def pySplitSep (sep : Char) (s : String) : List String := splitSepChars sep s.data []

/-- Python `str.startswith(p)`. -/
def charsLead : List Char → List Char → Bool
  | [], _ => true
  | _ :: _, [] => false
  | p :: ps, c :: cs => p = c && charsLead ps cs

/-- Python `s.startswith(p)`. -/
def pyStartsWith (s p : String) : Bool := charsLead p.data s.data

/-- Python `str.isdigit()` (ASCII digits). -/
def pyIsDigit (s : String) : Bool := !s.data.isEmpty && s.data.all Char.isDigit

/-- Decimal value of an all-digit string (Python `int(s)`). -/
def decVal (s : String) : Nat := s.data.foldl (fun a c => a * 10 + (c.toNat - 48)) 0

/-- Is `c` one of `0-9a-f` (the characters the validator's hex regex
`[^0-9a-f]` accepts after lower-casing)? -/
def isHexLower (c : Char) : Bool := c.isDigit || ('a' ≤ c && c ≤ 'f')

/-- Value of one hex digit (`0-9`, `a-f`, `A-F`). -/
def hexDigitVal (c : Char) : Nat :=
  if c.isDigit then c.toNat - 48
  else if 'a' ≤ c && c ≤ 'f' then c.toNat - 87
  else c.toNat - 55

/-- Hex value of a string (Python `int(s, 16)` on a valid hex string). -/
def hexVal (s : String) : Nat := s.data.foldl (fun a c => a * 16 + hexDigitVal c) 0

/-! ## Device constants (`rn2903` class attributes) -/

/-- `firmware_name = 'RN2903'`. -/
def firmware_name : String := "RN2903"

/-- `response_codes`: the full documented wire-level response-code
vocabulary (class constant; unused by `send_command`). -/
def response_codes : List String :=
  ["ok", "busy", "fram_counter_err_rejoin_needed", "invalid_class",
   "invalid_data_len", "invalid_param", "keys_not_init", "mac_paused",
   "multicast_keys_not_set", "no_free_ch", "not_joined", "silent", "err"]

/-- `nvm_adr_range = ['300','3FF']`. -/
def nvm_adr_range : List String := ["300", "3FF"]

/-- `dpin_names`: digital GPIO pins. -/
def dpin_names : List String :=
  ["GPIO0", "GPIO1", "GPIO2", "GPIO3", "GPIO4", "GPIO5", "GPIO6", "GPIO7",
   "GPIO8", "GPIO9", "GPIO10", "GPIO11", "GPIO12", "GPIO13",
   "UART_CTS", "UART_RTS", "TEST0", "TEST1"]

/-- `apin_names`: analog GPIO pins. -/
def apin_names : List String :=
  ["GPIO0", "GPIO1", "GPIO2", "GPIO3", "GPIO5", "GPIO6", "GPIO7",
   "GPIO8", "GPIO9", "GPIO10", "GPIO11", "GPIO12", "GPIO13"]

/-- `pin_modes = ['digout','digin','ana']`. -/
def pin_modes : List String := ["digout", "digin", "ana"]

/-- `max_tx_msg`: 240 `F` characters (120-byte message limit). -/
def max_tx_msg : String := ⟨List.replicate 240 'F'⟩

/-- `auto_freq_band`: automatic frequency correction bands in kHz. -/
def auto_freq_band : List String :=
  ["250", "125", "62.5", "31.3", "15.6", "7.8", "3.9", "200", "100", "50",
   "25", "12.5", "6.3", "3.1", "166.7", "83.3", "41.7", "20.8", "10.4",
   "5.2", "2.6"]

/-- `gfsk_modulation_bt`. -/
def gfsk_modulation_bt : List String := ["none", "1.0", "0.5", "0.3"]

/-- `rx_bandwidth` (same values as `auto_freq_band` in the source). -/
def rx_bandwidth : List String := auto_freq_band

/-- `spread_factors`. -/
def spread_factors : List String := ["sf7", "sf8", "sf9", "sf10", "sf11", "sf12"]

/-! ## Command specification tree -/

/-- A `user_input` parameter specification (`{'type': ..., 'range': ...}`). -/
inductive ParamSpec where
  /-- `{'type':'int','range':[lo,hi]}` with integer bounds. -/
  | int (lo hi : Nat)
  /-- `{'type':'hex','range':[lo,hi]}` with hex-string bounds. -/
  | hex (lo hi : String)
  /-- `{'type':'set','range': allowed}`. -/
  | set (allowed : List String)
deriving DecidableEq

/-- One node of the nested `commands` dict below a category and base
command: either an empty dict, a dict with a `user_input` list of one
or two specs, or a dict of subcommand children. -/
inductive CmdNode where
  /-- `{}` — a command taking nothing further (falsy dict). -/
  | leaf
  /-- `{'user_input': [sp1]}` or `{'user_input': [sp1, sp2]}`. -/
  | params (sp1 : ParamSpec) (sp2 : Option ParamSpec)
  /-- A dict of subcommand children. -/
  | children (ch : List (String × CmdNode))

/-- Python dict-key lookup on an association list. -/
def dictGet {α : Type} (k : String) : List (String × α) → Option α
  | [] => none
  | (k', v) :: rest => if k' = k then some v else dictGet k rest

/-- The `commands` specification tree, transcribed from the class
constants of `rn2903.py`. -/
def commands : List (String × List (String × CmdNode)) :=
  [("sys",
    [("sleep", .params (.int 100 4294967296) none),
     ("reset", .leaf),
     ("eraseFW", .leaf),
     ("factoryRESET", .leaf),
     ("set", .children
       [("nvm", .params (.hex "300" "3FF") (some (.hex "00" "FF"))),
        ("pindig", .params (.set dpin_names) (some (.int 0 1))),
        ("pinmode", .params (.set dpin_names) (some (.set pin_modes)))]),
     ("get", .children
       [("ver", .leaf),
        ("nvm", .params (.hex "300" "3FF") none),
        ("vdd", .leaf),
        ("hweui", .leaf),
        ("pindig", .params (.set dpin_names) none),
        ("pinana", .params (.set apin_names) none)])]),
   ("mac",
    [("reset", .leaf),
     ("pause", .leaf),
     ("resume", .leaf),
     ("save", .leaf),
     ("get", .children
       [("adr", .leaf), ("appeui", .leaf), ("ar", .leaf),
        ("ch", .children
          [("freq", .params (.int 0 71) none),
           ("drrange", .params (.int 0 71) none),
           ("status", .params (.int 0 71) none)]),
        ("class", .leaf), ("dcycleps", .leaf), ("devaddr", .leaf),
        ("deveui", .leaf), ("dnctr", .leaf), ("dr", .leaf), ("gwnb", .leaf),
        ("mcast", .leaf), ("mcastdevaddr", .leaf), ("mcastdnctr", .leaf),
        ("mrgn", .leaf), ("pwridx", .leaf), ("retx", .leaf), ("rx2", .leaf),
        ("rxdelay1", .leaf), ("rxdelay2", .leaf), ("status", .leaf),
        ("sync", .leaf), ("upctr", .leaf)])]),
   ("radio",
    [("rx", .params (.int 0 65535) none),
     ("tx", .params (.hex "0" max_tx_msg) none),
     ("cw", .leaf),
     ("rxstop", .leaf),
     ("set", .children
       [("afcbw", .params (.set auto_freq_band) none),
        ("bitrate", .params (.int 1 300000) none),
        ("bt", .params (.set gfsk_modulation_bt) none),
        ("bw", .params (.set ["125", "250", "500"]) none),
        ("cr", .params (.set ["4/5", "4/6", "4/7", "4/8"]) none),
        ("crc", .params (.set ["on", "off"]) none),
        ("fdev", .params (.int 0 200000) none),
        ("freq", .params (.int 902000000 928000000) none),
        ("iqi", .params (.set ["on", "off"]) none),
        ("mod", .params (.set ["lora", "fsk"]) none),
        ("prlen", .params (.int 0 65535) none),
        ("pwr", .params (.int 2 20) none),
        ("rxbw", .params (.set rx_bandwidth) none),
        ("sf", .params (.set spread_factors) none),
        ("sync", .params (.hex "0" "FFFFFFFFFFFFFFFF") none),
        ("wdt", .params (.int 0 4294967295) none)]),
     ("get", .children
       [("afcbw", .leaf), ("bitrate", .leaf), ("bt", .leaf), ("bw", .leaf),
        ("cr", .leaf), ("crc", .leaf), ("fdev", .leaf), ("freq", .leaf),
        ("iqi", .leaf), ("mod", .leaf), ("prlen", .leaf), ("pwr", .leaf),
        ("rssi", .leaf), ("rxbw", .leaf), ("sf", .leaf), ("snr", .leaf),
        ("sync", .leaf), ("wdt", .leaf)])])]

/-! ## `check_param` -/

/-- `rn2903.check_param(ps_param, ps_param_def)`.  The structural checks
on the specification dict always pass for the static tree above and are
omitted; the empty-string case is the Python falsy-parameter early
`return False`. -/
def check_param (param : String) (spec : ParamSpec) : Bool :=
  if param = "" then false
  else
    match spec with
    | .int lo hi =>
      if !pyIsDigit param then false
      else if decVal param < lo then false
      else if decVal param > hi then false
      else true
    | .hex lo hi =>
      let p := pyLower param
      if !p.data.all isHexLower then false
      else if hexVal p < hexVal lo then false
      else if hexVal p > hexVal hi then false
      else true
    | .set allowed =>
      allowed.contains param

/-! ## `validate_command` -/

/-- Result of `validate_command`: the canonical string, `return False`,
or an uncaught Python exception. -/
inductive VResult where
  | ok (s : String)
  | err
  | crash
deriving DecidableEq

/-- The depth-four branch of `validate_command`
(`commands[cmd_type][cmd_base][cmd_par1][cmd_par2]` reached as a
subcommand): exactly as in the source, `cmd_par2` is never appended to
the canonical string, and a failed `check_param` of `cmd_par3` falls
through with no error return — the token is silently dropped. -/
def validate_sub2 : CmdNode → String → String → VResult
  | .params sp1 _, send3, cmd_par3 =>
    if check_param cmd_par3 sp1 then .ok (send3 ++ " " ++ cmd_par3)
    else .ok send3
  | _, send3, _ => .ok send3

/-- The `commands[cmd_type][cmd_base][cmd_par1]` node of
`validate_command`: a falsy (empty) node accepts as-is, a `user_input`
node consumes `cmd_par2` (and possibly `cmd_par3`) as parameters, and
a node with children looks up `cmd_par2` as a deeper subcommand —
falling through with no error when `cmd_par2` is not a key. -/
def validate_sub : CmdNode → String → String → String → VResult
  | .leaf, send3, _, _ => .ok send3
  | .params sp1 osp2, send3, cmd_par2, cmd_par3 =>
    if check_param cmd_par2 sp1 then
      let send4 := send3 ++ " " ++ cmd_par2
      match osp2 with
      | none => .ok send4
      | some sp2 =>
        if check_param cmd_par3 sp2 then .ok (send4 ++ " " ++ cmd_par3)
        else .err
    else .err
  | .children ch2, send3, cmd_par2, cmd_par3 =>
    match dictGet cmd_par2 ch2 with
    | none => .ok send3
    | some sub2 => validate_sub2 sub2 send3 cmd_par3

/-- The `commands[cmd_type][cmd_base]` node of `validate_command`: a
falsy (empty) node accepts as-is, a `user_input` node consumes
`cmd_par1` (and possibly `cmd_par2`), and a node with children
requires `cmd_par1` to be a subcommand key (else `ValidationError`). -/
def validate_node : CmdNode → String → String → String → String → VResult
  | .leaf, send2, _, _, _ => .ok send2
  | .params sp1 osp2, send2, cmd_par1, cmd_par2, _ =>
    if check_param cmd_par1 sp1 then
      let send3 := send2 ++ " " ++ cmd_par1
      match osp2 with
      | none => .ok send3
      | some sp2 =>
        if check_param cmd_par2 sp2 then .ok (send3 ++ " " ++ cmd_par2)
        else .err
    else .err
  | .children ch, send2, cmd_par1, cmd_par2, cmd_par3 =>
    match dictGet cmd_par1 ch with
    | none => .err
    | some sub => validate_sub sub (send2 ++ " " ++ cmd_par1) cmd_par2 cmd_par3

/-- The body of `validate_command` after tokenization: `cmd_type` is
already lower-cased, `cmd_par1`–`cmd_par3` default to `''` when
absent.  Transcribed branch by branch from the source. -/
def validate_core (cmd_type cmd_base cmd_par1 cmd_par2 cmd_par3 : String) : VResult :=
  match dictGet cmd_type commands with
  | none => .err
  | some bases =>
    match dictGet cmd_base bases with
    | none => .err
    | some node =>
      validate_node node (cmd_type ++ " " ++ cmd_base) cmd_par1 cmd_par2 cmd_par3

/-- `validate_command` on the whitespace-token list (`cmd_set`):
`cmd_set[0]`/`cmd_set[1]` raise `IndexError` when missing. -/
def validateTokens : List String → VResult
  | t0 :: t1 :: rest =>
    validate_core (pyLower t0) t1 (rest.getD 0 "") (rest.getD 1 "") (rest.getD 2 "")
  | _ => .crash

/-- `rn2903.validate_command(ps_cmd)`.  The guard is Python's
`if ' ' not in cmd: return False`; the token extraction then indexes
`cmd_set[0]` and `cmd_set[1]` unguarded. -/
def validate_command (ps_cmd : String) : VResult :=
  if ' ' ∈ ps_cmd.data then validateTokens (pySplit ps_cmd)
  else .err

/-! ## Transport model -/

/-- A Python value that is either `False` or a string (the shape of
`send_command`'s result components and of `read_response`'s result). -/
inductive PyV where
  | pyFalse
  | pyStr (s : String)
deriving DecidableEq

/-- The serial-transport world: `writeScript` scripts the outcome of
each successive transport write (exhausted script = success),
`readScript` scripts the outcome of each successive `read_response`
call (exhausted script = timed-out read returning the empty line;
`.pyFalse` = read exception), and `writes` records each byte string
handed to the serial `write` call, in order. -/
structure World where
  writeScript : List Bool
  readScript : List PyV
  writes : List String
deriving DecidableEq

/-- `rn2903.write_command(cmd_str)`: rejects the empty string, appends
the terminator `"\r\n"`, and writes to the serial device. -/
def write_command (cmd_str : String) (w : World) : Bool × World :=
  if cmd_str = "" then (false, w)
  else
    (w.writeScript.headD true,
     { w with writes := w.writes ++ [cmd_str ++ "\r\n"],
              writeScript := w.writeScript.tail })

/-- `rn2903.read_response()`: the byte-accumulation loop is abstracted
to its observable outcome — the terminator-stripped response line, or
`False` on a read exception. -/
def read_response (w : World) : PyV × World :=
  match w.readScript with
  | [] => (.pyStr "", w)
  | r :: rest => (r, { w with readScript := rest })

/-! ## `send_command` -/

/-- `err_status`, the local device-error list actually consulted by
`send_command` (line 819 of the source). -/
def err_status : List String := ["invalid_param", "busy", "radio_err"]

/-- Python `status in err_status` where `status` may be `False`. -/
def pyInStrList (v : PyV) (l : List String) : Bool :=
  match v with
  | .pyFalse => false
  | .pyStr s => decide (s ∈ l)

/-- Result of `send_command`: the `(status, response)` pair plus the
world after the call, or an uncaught Python exception. -/
inductive SCResult where
  | ret (status response : PyV) (w : World)
  | exn (w : World)
deriving DecidableEq

/-- World component of a `send_command` result. -/
def SCResult.world : SCResult → World
  | .ret _ _ w => w
  | .exn w => w

/-- The shared `sys reset` / `sys factoryRESET` response handling:
read one line and parse it as a six-field firmware banner whose first
field must equal `firmware_name`; unpacking or attribute errors are
caught and become `(False, False)`. -/
def resetReadBanner (w1 : World) : SCResult :=
  let res := read_response w1
  match res.1 with
  | .pyFalse => .ret .pyFalse .pyFalse res.2
  | .pyStr line =>
    let parts := pySplitSep ' ' line
    if parts.length = 6 then
      if parts.getD 0 "" = firmware_name then .ret (.pyStr "ok") (.pyStr line) res.2
      else .ret .pyFalse .pyFalse res.2
    else .ret .pyFalse .pyFalse res.2

/-- `rn2903.send_command(ps_cmd)` for a session whose `dev_status` and
`safe_mode` instance variables are the first two arguments.
Transcribed branch by branch from the source; `send_command` never
mutates `dev_status` or `safe_mode`. -/
def send_command (dev_status safe_mode : String) (w : World) (ps_cmd : String) : SCResult :=
  if dev_status = "error" then .ret .pyFalse .pyFalse w
  else
    match validate_command ps_cmd with
    | .crash => .exn w
    | .err => .ret .pyFalse .pyFalse w
    | .ok send_str =>
      if send_str = "" then .ret .pyFalse .pyFalse w
      else if pyStartsWith send_str "sys sleep" then
        let mils := (pySplitSep ' ' send_str).getD 2 ""
        let (wok, w1) := write_command send_str w
        if wok then
          let (status, w2) := read_response w1
          if status = .pyStr "ok" then .ret (.pyStr "ok") (.pyStr mils) w2
          else .ret .pyFalse .pyFalse w2
        else .ret (.pyStr "") (.pyStr "") w1
      else if pyStartsWith send_str "sys reset" then
        let (wok, w1) := write_command send_str w
        if wok then resetReadBanner w1
        else .ret (.pyStr "") (.pyStr "") w1
      else if pyStartsWith send_str "sys eraseFW" then
        if safe_mode = "off" then
          let (wok, w1) := write_command send_str w
          if wok then .ret (.pyStr "ok") (.pyStr "awaiting firmware") w1
          else .ret (.pyStr "") (.pyStr "") w1
        else .ret .pyFalse .pyFalse w
      else if pyStartsWith send_str "sys factoryRESET" then
        if safe_mode = "off" then
          let (wok, w1) := write_command send_str w
          if wok then resetReadBanner w1
          else .ret (.pyStr "") (.pyStr "") w1
        else .ret .pyFalse .pyFalse w
      else if pyStartsWith send_str "radio rx " then
        .ret (.pyStr "") (.pyStr "") w
      else if pyStartsWith send_str "radio tx" then
        .ret (.pyStr "") (.pyStr "") w
      else
        let (wok, w1) := write_command send_str w
        if wok then
          let (status, w2) := read_response w1
          if pyInStrList status err_status then .ret .pyFalse status w2
          else if status = .pyStr "ok" then .ret (.pyStr "ok") (.pyStr "") w2
          else .ret (.pyStr "ok") status w2
        else .ret (.pyStr "") (.pyStr "") w1

/-! ## `get_device_config` -/

/-- The `{'sys':{},'mac':{},'radio':{}}` config structure; values keep
their Python type (`False` or string). -/
structure Config where
  sys : List (String × PyV)
  mac : List (String × PyV)
  radio : List (String × PyV)
deriving DecidableEq

/-- `config[group][key] = v`. -/
def configInsert (cfg : Config) (group key : String) (v : PyV) : Config :=
  if group = "sys" then { cfg with sys := cfg.sys ++ [(key, v)] }
  else if group = "mac" then { cfg with mac := cfg.mac ++ [(key, v)] }
  else if group = "radio" then { cfg with radio := cfg.radio ++ [(key, v)] }
  else cfg

/-- `config_cmds`, the fixed read sequence of `get_device_config`. -/
def config_cmds : List String :=
  ["sys get ver", "sys get nvm", "sys get hweui",
   "mac get adr", "mac get appeui", "mac get ar", "mac get class",
   "mac get dcycleps", "mac get devaddr", "mac get deveui", "mac get dnctr",
   "mac get dr", "mac get gwnb", "mac get mcast", "mac get mcastdevaddr",
   "mac get mcastdnctr", "mac get mrgn", "mac get pwridx", "mac get retx",
   "mac get rx2", "mac get rxdelay1", "mac get rxdelay2", "mac get status",
   "mac get sync", "mac get upctr",
   "radio get afcbw", "radio get bitrate", "radio get bt", "radio get bw",
   "radio get cr", "radio get crc", "radio get fdev", "radio get freq",
   "radio get iqi", "radio get mod", "radio get prlen", "radio get pwr",
   "radio get rxbw", "radio get sf", "radio get sync", "radio get wdt"]

/-- One uppercase hex digit. -/
def hexDigitU (n : Nat) : Char :=
  if n < 10 then Char.ofNat (48 + n) else Char.ofNat (55 + n)

/-- The NVM address string for byte `adr` (`format(adr,'x').upper()`
prefixed with `'30'` or `'3'`), for `0 ≤ adr < 256`. -/
def nvmHexAddr (adr : Nat) : String :=
  if adr < 16 then ⟨['3', '0', hexDigitU adr]⟩
  else ⟨['3', hexDigitU (adr / 16), hexDigitU (adr % 16)]⟩

/-- The `while adr < 256` NVM read loop, iterated over the remaining
addresses; `none` models an uncaught exception (a `send_command` crash,
or `nvm_data += False` after a read failure that still returned
status `'ok'`). -/
def nvmLoop (st sf : String) : List Nat → String → World → Option String × World
  | [], acc, w => (some acc, w)
  | adr :: rest, acc, w =>
    match send_command st sf w ("sys get nvm " ++ nvmHexAddr adr) with
    | .exn w' => (none, w')
    | .ret status resp w' =>
      if status = .pyStr "ok" then
        match resp with
        | .pyStr s => nvmLoop st sf rest (acc ++ s) w'
        | .pyFalse => (none, w')
      else nvmLoop st sf rest acc w'

/-- The `for cmd in config_cmds` loop of `get_device_config`. -/
def gdcLoop (st sf : String) : List String → Config → World → Option Config × World
  | [], cfg, w => (some cfg, w)
  | cmd :: rest, cfg, w =>
    let parts := pySplitSep ' ' cmd
    if parts.length = 3 then
      let ctype := parts.getD 0 ""
      let cparm := parts.getD 2 ""
      if cmd = "sys get nvm" then
        match nvmLoop st sf (List.range 256) "" w with
        | (none, w') => (none, w')
        | (some nvm, w') =>
          gdcLoop st sf rest (configInsert cfg "sys" "nvm" (.pyStr nvm)) w'
      else if cmd = "mac get ch" then
        gdcLoop st sf rest cfg w
      else
        match send_command st sf w cmd with
        | .exn w' => (none, w')
        | .ret status resp w' =>
          if status = .pyStr "ok" then
            gdcLoop st sf rest (configInsert cfg ctype cparm resp) w'
          else gdcLoop st sf rest cfg w'
    else (none, w)

/-- The tail of `get_device_config`: after the command loop, issue
`mac resume` (result unused) and return the assembled config. -/
def gdcFinish (st sf : String) (p : Option Config × World) : Option Config × World :=
  match p.1 with
  | none => (none, p.2)
  | some cfg =>
    match send_command st sf p.2 "mac resume" with
    | .exn w3 => (none, w3)
    | .ret _ _ w3 => (some cfg, w3)

/-- `rn2903.get_device_config()`: issue `mac pause` (result unused),
run every read command, issue `mac resume` (result unused), and return
the assembled config.  `none` models an uncaught exception. -/
def get_device_config (st sf : String) (w : World) : Option Config × World :=
  match send_command st sf w "mac pause" with
  | .exn w1 => (none, w1)
  | .ret _ _ w1 => gdcFinish st sf (gdcLoop st sf config_cmds ⟨[], [], []⟩ w1)

/-! ## `put_device_config` -/

/-- The validation pass over `device_config['radio']`: `config_valid`
starts `True` and is set `False` for each setting whose
`radio set <key> <value>` command fails validation. -/
def allValidRadio (radio : List (String × String)) : Bool :=
  radio.foldl
    (fun b kv =>
      match validate_command ("radio set " ++ kv.1 ++ " " ++ kv.2) with
      | .ok _ => b
      | _ => false)
    true

/-- The `radio set` write loop of `put_device_config`: `break`s at the
first step whose status is not `'ok'`. -/
def putSetLoop (st sf : String) : List (String × String) → World → Option Bool × World
  | [], w => (some true, w)
  | (k, v) :: rest, w =>
    match send_command st sf w ("radio set " ++ k ++ " " ++ v) with
    | .exn w' => (none, w')
    | .ret status _ w' =>
      if status = .pyStr "ok" then putSetLoop st sf rest w'
      else (some false, w')

/-- The trailing `mac resume` step of `put_device_config`: a non-`'ok'`
status returns `False`, otherwise the function reaches its final
`return True`. -/
def putResume (st sf : String) (w : World) : Option Bool × World :=
  match send_command st sf w "mac resume" with
  | .exn w' => (none, w')
  | .ret status _ w' =>
    if status = .pyStr "ok" then (some true, w')
    else (some false, w')

/-- `rn2903.put_device_config()` for a session whose
`device_config['radio']` mapping is `radio`.  Transcribed branch by
branch: when validation fails the whole transport block is skipped and
the trailing `return True` still executes; a failed `radio set` step
breaks the loop and skips `mac save` (whose own result is only logged)
but not `mac resume`; only a failed `mac pause` or `mac resume`
returns `False`. -/
def put_device_config (radio : List (String × String)) (st sf : String) (w : World) :
    Option Bool × World :=
  if allValidRadio radio then
    match send_command st sf w "mac pause" with
    | .exn w1 => (none, w1)
    | .ret status _ w1 =>
      if status = .pyStr "ok" then
        match putSetLoop st sf radio w1 with
        | (none, w2) => (none, w2)
        | (some set_config, w2) =>
          if set_config then
            match send_command st sf w2 "mac save" with
            | .exn w' => (none, w')
            | .ret _ _ w3 => putResume st sf w3
          else putResume st sf w2
      else (some false, w1)
  else (some true, w)

end RN2903

set_option maxRecDepth 100000

namespace RN2903

/-! ## Helper lemmas -/

/-- `check_param` rejects the empty string (Python's falsy-parameter
early return), whatever the specification. -/
theorem check_param_empty (sp : ParamSpec) : check_param "" sp = false := rfl

/-- A parameter accepted by `check_param` is nonempty. -/
theorem check_param_ne_empty {p : String} {sp : ParamSpec}
    (h : check_param p sp = true) : p ≠ "" := by
  intro hp
  rw [hp, check_param_empty] at h
  exact Bool.false_ne_true h

/-- Strings differ when their character lists differ. -/
theorem string_ne_of_data_ne {s t : String} (h : s.data ≠ t.data) : s ≠ t :=
  fun he => h (congrArg String.data he)

/-- Every canonical string produced by `validate_core` is nonempty
(it always contains the space between category and base command). -/
theorem validate_core_ok_ne_empty {a b p1 p2 p3 : String} {c : String}
    (h : validate_core a b p1 p2 p3 = .ok c) : c ≠ "" := by
  unfold validate_core validate_node validate_sub validate_sub2 at h
  repeat' split at h
  all_goals
    first
      | (injection h with h
         subst h
         intro he
         have hd := congrArg String.data he
         simp [String.data_append, (show (" " : String).data = [' '] from rfl),
               (show ("" : String).data = [] from rfl)] at hd)
      | injection h

/-- Every canonical string produced by `validate_command` is nonempty. -/
theorem validate_command_ok_ne_empty {cmd c : String}
    (h : validate_command cmd = .ok c) : c ≠ "" := by
  unfold validate_command at h
  split at h
  · unfold validateTokens at h
    split at h
    · exact validate_core_ok_ne_empty h
    · exact absurd h (by simp)
  · exact absurd h (by simp)

/-- In the `error` device state, `send_command` returns `(False, False)`
before validating and before any transport interaction. -/
theorem send_command_error_state (sf : String) (w : World) (cmd : String) :
    send_command "error" sf w cmd = .ret .pyFalse .pyFalse w := rfl

/-- Dispatching a command whose canonical form is in none of the six
special-cased classes always reaches the transport write: the result is
a `.ret` whose world has exactly the canonical bytes appended to the
write trace, whatever the transport scripts. -/
theorem send_other_writes (st sf : String) (w : World) (cmd s : String)
    (hst : st ≠ "error") (hv : validate_command cmd = .ok s)
    (h1 : pyStartsWith s "sys sleep" = false)
    (h2 : pyStartsWith s "sys reset" = false)
    (h3 : pyStartsWith s "sys eraseFW" = false)
    (h4 : pyStartsWith s "sys factoryRESET" = false)
    (h5 : pyStartsWith s "radio rx " = false)
    (h6 : pyStartsWith s "radio tx" = false) :
    ∃ a b w', send_command st sf w cmd = .ret a b w' ∧
      w'.writes = w.writes ++ [s ++ "\r\n"] := by
  have hne : s ≠ "" := validate_command_ok_ne_empty hv
  unfold send_command write_command read_response
  simp only [if_neg hst, hv, if_neg hne, h1, h2, h3, h4, h5, h6,
    Bool.false_eq_true, if_false]
  repeat' split
  all_goals exact ⟨_, _, _, rfl, by simp⟩

/-- Full outcome of dispatching a non-special command when the write
succeeds and the device answers the line `line`: the response policy of
`send_command`'s final branch, with the canonical bytes written. -/
theorem send_other_response_policy (st sf : String) (w : World) (cmd s line : String)
    (rs : List PyV)
    (hst : st ≠ "error") (hv : validate_command cmd = .ok s)
    (h1 : pyStartsWith s "sys sleep" = false)
    (h2 : pyStartsWith s "sys reset" = false)
    (h3 : pyStartsWith s "sys eraseFW" = false)
    (h4 : pyStartsWith s "sys factoryRESET" = false)
    (h5 : pyStartsWith s "radio rx " = false)
    (h6 : pyStartsWith s "radio tx" = false)
    (hw : w.writeScript = []) (hr : w.readScript = .pyStr line :: rs) :
    send_command st sf w cmd =
      if line ∈ err_status then
        .ret .pyFalse (.pyStr line) ⟨[], rs, w.writes ++ [s ++ "\r\n"]⟩
      else if line = "ok" then
        .ret (.pyStr "ok") (.pyStr "") ⟨[], rs, w.writes ++ [s ++ "\r\n"]⟩
      else
        .ret (.pyStr "ok") (.pyStr line) ⟨[], rs, w.writes ++ [s ++ "\r\n"]⟩ := by
  have hne : s ≠ "" := validate_command_ok_ne_empty hv
  unfold send_command write_command read_response pyInStrList
  simp only [if_neg hst, hv, if_neg hne, h1, h2, h3, h4, h5, h6,
    Bool.false_eq_true, if_false, hw, hr]
  simp only [List.headD, List.tail, decide_eq_true_eq, PyV.pyStr.injEq]
  repeat' split
  all_goals first
    | rfl
    | simp_all

/-- The world after `write_command` has a write trace extending the
original one. -/
theorem write_command_pair_writes {c : String} {w : World} {wok : Bool} {w1 : World}
    (h : write_command c w = (wok, w1)) : ∃ δ, w1.writes = w.writes ++ δ := by
  unfold write_command at h
  split at h
  · injection h with h1 h2
    subst h2
    exact ⟨[], by simp⟩
  · injection h with h1 h2
    subst h2
    exact ⟨_, rfl⟩

/-- `read_response` never changes the write trace. -/
theorem read_response_pair_writes {w : World} {r : PyV} {w2 : World}
    (h : read_response w = (r, w2)) : w2.writes = w.writes := by
  unfold read_response at h
  split at h
  all_goals injection h with h1 h2
  all_goals subst h2
  · rfl
  · rfl

/-- `resetReadBanner` never changes the write trace. -/
theorem resetReadBanner_world_writes (w1 : World) :
    (resetReadBanner w1).world.writes = w1.writes := by
  unfold resetReadBanner read_response
  cases hrs : w1.readScript with
  | nil => rfl
  | cons r rest =>
    rcases r with _ | line
    · rfl
    · by_cases h6 : (pySplitSep ' ' line).length = 6
      · simp only [h6, if_true]
        split_ifs <;> rfl
      · simp [h6, SCResult.world]

/-- `send_command` only ever appends to the transport write trace. -/
theorem send_command_writes_mono (st sf : String) (w : World) (cmd : String) :
    ∃ δ, (send_command st sf w cmd).world.writes = w.writes ++ δ := by
  by_cases hst : st = "error"
  · exact ⟨[], by simp [send_command, hst, SCResult.world]⟩
  rcases hv : validate_command cmd with s | _ | _
  rotate_left
  · exact ⟨[], by simp [send_command, hst, hv, SCResult.world]⟩
  · exact ⟨[], by simp [send_command, hst, hv, SCResult.world]⟩
  by_cases hse : s = ""
  · exact ⟨[], by simp [send_command, hst, hv, hse, SCResult.world]⟩
  rcases hwc : write_command s w with ⟨wok, w1⟩
  obtain ⟨δ1, hδ1⟩ := write_command_pair_writes hwc
  rcases hrr : read_response w1 with ⟨status, w2⟩
  have hδ2 := read_response_pair_writes hrr
  have hbw := resetReadBanner_world_writes w1
  unfold send_command
  simp only [if_neg hst, hv, if_neg hse, hwc, hrr]
  repeat' split
  all_goals
    first
      | (refine ⟨δ1, ?_⟩
         first
           | (show w2.writes = w.writes ++ δ1
              rw [hδ2, hδ1])
           | (show w1.writes = w.writes ++ δ1
              exact hδ1)
           | (show (resetReadBanner w1).world.writes = w.writes ++ δ1
              rw [hbw, hδ1]))
      | (refine ⟨[], ?_⟩
         show w.writes = w.writes ++ []
         simp)

/-- The NVM read loop only ever appends to the write trace. -/
theorem nvmLoop_writes_mono (st sf : String) (adrs : List Nat) (acc : String) (w : World) :
    ∃ δ, (nvmLoop st sf adrs acc w).2.writes = w.writes ++ δ := by
  induction adrs generalizing acc w with
  | nil => exact ⟨[], by simp [nvmLoop]⟩
  | cons a rest ih =>
    obtain ⟨δ1, hδ1⟩ := send_command_writes_mono st sf w ("sys get nvm " ++ nvmHexAddr a)
    unfold nvmLoop
    split
    next w' heq =>
      rw [heq] at hδ1
      exact ⟨δ1, hδ1⟩
    next status resp w' heq =>
      rw [heq] at hδ1
      have hδ1' : w'.writes = w.writes ++ δ1 := hδ1
      split
      · split
        next s2 =>
          obtain ⟨δ2, hδ2⟩ := ih (acc ++ s2) w'
          exact ⟨δ1 ++ δ2, hδ2.trans (by rw [hδ1', List.append_assoc])⟩
        next => exact ⟨δ1, hδ1'⟩
      · obtain ⟨δ2, hδ2⟩ := ih acc w'
        exact ⟨δ1 ++ δ2, hδ2.trans (by rw [hδ1', List.append_assoc])⟩

/-- The `get_device_config` command loop only ever appends to the
write trace. -/
theorem gdcLoop_writes_mono (st sf : String) (cmds : List String) (cfg : Config) (w : World) :
    ∃ δ, (gdcLoop st sf cmds cfg w).2.writes = w.writes ++ δ := by
  induction cmds generalizing cfg w with
  | nil => exact ⟨[], by simp [gdcLoop]⟩
  | cons cmd rest ih =>
    unfold gdcLoop
    by_cases hp : (pySplitSep ' ' cmd).length = 3
    · simp only [hp, eq_self_iff_true, if_true]
      split
      · split
        next w' heq =>
          obtain ⟨δ1, hδ1⟩ := nvmLoop_writes_mono st sf (List.range 256) "" w
          rw [heq] at hδ1
          exact ⟨δ1, hδ1⟩
        next nvm w' heq =>
          obtain ⟨δ1, hδ1⟩ := nvmLoop_writes_mono st sf (List.range 256) "" w
          rw [heq] at hδ1
          have hδ1' : w'.writes = w.writes ++ δ1 := hδ1
          obtain ⟨δ2, hδ2⟩ := ih _ w'
          exact ⟨δ1 ++ δ2, hδ2.trans (by rw [hδ1', List.append_assoc])⟩
      · split
        · exact ih cfg w
        · split
          next w' heq =>
            obtain ⟨δ1, hδ1⟩ := send_command_writes_mono st sf w cmd
            rw [heq] at hδ1
            exact ⟨δ1, hδ1⟩
          next status resp w' heq =>
            obtain ⟨δ1, hδ1⟩ := send_command_writes_mono st sf w cmd
            rw [heq] at hδ1
            have hδ1' : w'.writes = w.writes ++ δ1 := hδ1
            split
            · obtain ⟨δ2, hδ2⟩ := ih _ w'
              exact ⟨δ1 ++ δ2, hδ2.trans (by rw [hδ1', List.append_assoc])⟩
            · obtain ⟨δ2, hδ2⟩ := ih cfg w'
              exact ⟨δ1 ++ δ2, hδ2.trans (by rw [hδ1', List.append_assoc])⟩
    · simp only [hp, if_false]
      exact ⟨[], by simp⟩

/-- The closing `mac resume` step of `get_device_config` only ever
appends to the write trace. -/
theorem gdcFinish_writes (st sf : String) (p : Option Config × World) :
    ∃ δ, (gdcFinish st sf p).2.writes = p.2.writes ++ δ := by
  rcases p with ⟨optCfg, w2⟩
  rcases optCfg with _ | cfg
  · exact ⟨[], by simp [gdcFinish]⟩
  · unfold gdcFinish
    obtain ⟨δ3, hδ3⟩ := send_command_writes_mono st sf w2 "mac resume"
    simp only []
    split
    next w3 heq =>
      rw [heq] at hδ3
      exact ⟨δ3, hδ3⟩
    next a3 b3 w3 heq =>
      rw [heq] at hδ3
      exact ⟨δ3, hδ3⟩

/-- Running the command loop on a head command that is dispatched
through `send_command`'s final branch first writes that command's
bytes, then only appends. -/
theorem gdcLoop_step_writes (st sf : String) (cmd : String) (rest : List String)
    (cfg : Config) (w : World)
    (hst : st ≠ "error") (hv : validate_command cmd = .ok cmd)
    (hparts : (pySplitSep ' ' cmd).length = 3)
    (hnvm : cmd ≠ "sys get nvm") (hch : cmd ≠ "mac get ch")
    (h1 : pyStartsWith cmd "sys sleep" = false)
    (h2 : pyStartsWith cmd "sys reset" = false)
    (h3 : pyStartsWith cmd "sys eraseFW" = false)
    (h4 : pyStartsWith cmd "sys factoryRESET" = false)
    (h5 : pyStartsWith cmd "radio rx " = false)
    (h6 : pyStartsWith cmd "radio tx" = false) :
    ∃ δ, (gdcLoop st sf (cmd :: rest) cfg w).2.writes =
      w.writes ++ (cmd ++ "\r\n") :: δ := by
  obtain ⟨a, b, w', hs, hw'⟩ := send_other_writes st sf w cmd cmd hst hv h1 h2 h3 h4 h5 h6
  unfold gdcLoop
  simp only [if_pos hparts, if_neg hnvm, if_neg hch, hs]
  split
  · obtain ⟨δ2, hδ2⟩ := gdcLoop_writes_mono st sf rest _ w'
    exact ⟨δ2, by rw [hδ2, hw', List.append_assoc]; rfl⟩
  · obtain ⟨δ2, hδ2⟩ := gdcLoop_writes_mono st sf rest cfg w'
    exact ⟨δ2, by rw [hδ2, hw', List.append_assoc]; rfl⟩

/-- Outside the `error` state, `get_device_config` always writes
`mac pause` first and `sys get ver` second — the result of the pause
step is never consulted. -/
theorem get_device_config_first_writes (st sf : String) (w : World) (hst : st ≠ "error") :
    ∃ δ, (get_device_config st sf w).2.writes =
      w.writes ++ "mac pause\r\n" :: "sys get ver\r\n" :: δ := by
  obtain ⟨a, b, w1, hs1, hw1⟩ :=
    send_other_writes st sf w "mac pause" "mac pause" hst (by decide)
      (by decide) (by decide) (by decide) (by decide) (by decide) (by decide)
  unfold get_device_config
  rw [hs1]
  show ∃ δ, (gdcFinish st sf (gdcLoop st sf config_cmds ⟨[], [], []⟩ w1)).2.writes =
    w.writes ++ "mac pause\r\n" :: "sys get ver\r\n" :: δ
  rw [show config_cmds = "sys get ver" :: config_cmds.tail from rfl]
  obtain ⟨δ2, hδ2⟩ :=
    gdcLoop_step_writes st sf "sys get ver" config_cmds.tail ⟨[], [], []⟩ w1 hst
      (by decide) (by decide) (by decide) (by decide)
      (by decide) (by decide) (by decide) (by decide) (by decide) (by decide)
  obtain ⟨δ3, hδ3⟩ :=
    gdcFinish_writes st sf
      (gdcLoop st sf ("sys get ver" :: config_cmds.tail) ⟨[], [], []⟩ w1)
  refine ⟨δ2 ++ δ3, ?_⟩
  rw [hδ3, hδ2, hw1]
  simp

/-- The tokenized validator result depends only on the first five
whitespace-separated tokens (`cmd_set[0]` … `cmd_set[4]`). -/
theorem validateTokens_take5 : ∀ ts : List String,
    validateTokens ts = validateTokens (ts.take 5)
  | [] => rfl
  | [_] => rfl
  | _ :: _ :: [] => rfl
  | _ :: _ :: [_] => rfl
  | _ :: _ :: [_, _] => rfl
  | _ :: _ :: _ :: _ :: _ :: _ => rfl

/-- In the static command tree, no subcommand dictionary (at the level
below a base command) has the empty string as a key. -/
theorem commands_child_lookup_empty (a b : String) (bases : List (String × CmdNode))
    (node : CmdNode) (ch : List (String × CmdNode))
    (h1 : dictGet a commands = some bases) (h2 : dictGet b bases = some node)
    (h3 : node = .children ch) : dictGet "" ch = none := by
  subst h3
  simp only [commands, dictGet] at h1
  repeat' split at h1
  all_goals
    first
      | exact Option.noConfusion h1
      | (injection h1 with h1e
         subst h1e
         simp only [dictGet] at h2
         repeat' split at h2
         all_goals
           first
             | exact Option.noConfusion h2
             | (injection h2 with h2e
                first
                  | (injection h2e with h2f
                     subst h2f
                     rfl)
                  | exact CmdNode.noConfusion h2e))

/-- Extending the parameter slots of an accepted depth-four subcommand
node keeps it accepted (this branch has no error path at all). -/
theorem validate_sub_extend (sub : CmdNode) (send3 p2 p3 q2 q3 : String) (c : String)
    (h : validate_sub sub send3 p2 p3 = .ok c)
    (e2 : q2 = p2 ∨ p2 = "") (e3 : q3 = p3 ∨ p3 = "") :
    ∃ c', validate_sub sub send3 q2 q3 = .ok c' := by
  rcases sub with _ | ⟨sp1, osp2⟩ | ch2
  · exact ⟨send3, rfl⟩
  · simp only [validate_sub] at h ⊢
    by_cases hc2 : check_param p2 sp1 = true
    · have hp2 : p2 ≠ "" := check_param_ne_empty hc2
      rcases e2 with e2 | e2
      · rw [e2, if_pos hc2]
        rw [if_pos hc2] at h
        rcases osp2 with _ | sp2
        · exact ⟨_, rfl⟩
        · replace h : (if check_param p3 sp2 = true
              then VResult.ok (send3 ++ " " ++ p2 ++ " " ++ p3)
              else VResult.err) = VResult.ok c := h
          show ∃ c', (if check_param q3 sp2 = true
              then VResult.ok (send3 ++ " " ++ p2 ++ " " ++ q3)
              else VResult.err) = VResult.ok c'
          by_cases hc3 : check_param p3 sp2 = true
          · have hp3 : p3 ≠ "" := check_param_ne_empty hc3
            rcases e3 with e3 | e3
            · rw [e3, if_pos hc3]
              exact ⟨_, rfl⟩
            · exact absurd e3 hp3
          · rw [if_neg hc3] at h
            exact VResult.noConfusion h
      · exact absurd e2 hp2
    · rw [if_neg hc2] at h
      exact VResult.noConfusion h
  · simp only [validate_sub]
    rcases hL : dictGet q2 ch2 with _ | sub2
    · exact ⟨send3, rfl⟩
    · rcases sub2 with _ | ⟨sp1, osp2⟩ | ch3
      · exact ⟨send3, rfl⟩
      · simp only [validate_sub2]
        by_cases hc3 : check_param q3 sp1 = true
        · rw [if_pos hc3]
          exact ⟨_, rfl⟩
        · rw [if_neg hc3]
          exact ⟨send3, rfl⟩
      · exact ⟨send3, rfl⟩

/-- Extending the parameter slots of an accepted base-command node
keeps it accepted with some canonical string. -/
theorem validate_node_extend (node : CmdNode) (send2 p1 p2 p3 q1 q2 q3 : String)
    (c : String)
    (hwf : ∀ ch, node = .children ch → dictGet "" ch = none)
    (h : validate_node node send2 p1 p2 p3 = .ok c)
    (e1 : q1 = p1 ∨ p1 = "") (e2 : q2 = p2 ∨ p2 = "") (e3 : q3 = p3 ∨ p3 = "") :
    ∃ c', validate_node node send2 q1 q2 q3 = .ok c' := by
  rcases node with _ | ⟨sp1, osp2⟩ | ch
  · exact ⟨send2, rfl⟩
  · simp only [validate_node] at h ⊢
    by_cases hc1 : check_param p1 sp1 = true
    · have hp1 : p1 ≠ "" := check_param_ne_empty hc1
      rcases e1 with e1 | e1
      · rw [e1, if_pos hc1]
        rw [if_pos hc1] at h
        rcases osp2 with _ | sp2
        · exact ⟨_, rfl⟩
        · replace h : (if check_param p2 sp2 = true
              then VResult.ok (send2 ++ " " ++ p1 ++ " " ++ p2)
              else VResult.err) = VResult.ok c := h
          show ∃ c', (if check_param q2 sp2 = true
              then VResult.ok (send2 ++ " " ++ p1 ++ " " ++ q2)
              else VResult.err) = VResult.ok c'
          by_cases hc2 : check_param p2 sp2 = true
          · have hp2 : p2 ≠ "" := check_param_ne_empty hc2
            rcases e2 with e2 | e2
            · rw [e2, if_pos hc2]
              exact ⟨_, rfl⟩
            · exact absurd e2 hp2
          · rw [if_neg hc2] at h
            exact VResult.noConfusion h
      · exact absurd e1 hp1
    · rw [if_neg hc1] at h
      exact VResult.noConfusion h
  · simp only [validate_node] at h ⊢
    rcases hL : dictGet p1 ch with _ | sub
    · rw [hL] at h
      exact VResult.noConfusion h
    · rw [hL] at h
      replace h : validate_sub sub (send2 ++ " " ++ p1) p2 p3 = .ok c := h
      have hq1 : q1 = p1 := by
        rcases e1 with e1 | e1
        · exact e1
        · rw [e1] at hL
          rw [hwf ch rfl] at hL
          exact Option.noConfusion hL
      rw [hq1, hL]
      show ∃ c', validate_sub sub (send2 ++ " " ++ p1) q2 q3 = .ok c'
      exact validate_sub_extend sub (send2 ++ " " ++ p1) p2 p3 q2 q3 c h e2 e3

/-- Extending the parameter slots of an accepted command keeps it
accepted with some canonical string. -/
theorem validate_core_extend (a b p1 p2 p3 q1 q2 q3 : String) (c : String)
    (h : validate_core a b p1 p2 p3 = .ok c)
    (e1 : q1 = p1 ∨ p1 = "") (e2 : q2 = p2 ∨ p2 = "") (e3 : q3 = p3 ∨ p3 = "") :
    ∃ c', validate_core a b q1 q2 q3 = .ok c' := by
  unfold validate_core at h ⊢
  rcases h1 : dictGet a commands with _ | bases
  · rw [h1] at h
    exact VResult.noConfusion (show VResult.err = VResult.ok c from h)
  · rw [h1] at h
    replace h : (match dictGet b bases with
        | none => VResult.err
        | some node => validate_node node (a ++ " " ++ b) p1 p2 p3) = .ok c := h
    show ∃ c', (match dictGet b bases with
        | none => VResult.err
        | some node => validate_node node (a ++ " " ++ b) q1 q2 q3) = .ok c'
    rcases h2 : dictGet b bases with _ | node
    · rw [h2] at h
      exact VResult.noConfusion (show VResult.err = VResult.ok c from h)
    · rw [h2] at h
      replace h : validate_node node (a ++ " " ++ b) p1 p2 p3 = .ok c := h
      show ∃ c', validate_node node (a ++ " " ++ b) q1 q2 q3 = .ok c'
      exact validate_node_extend node (a ++ " " ++ b) p1 p2 p3 q1 q2 q3 c
        (fun ch h3 => commands_child_lookup_empty a b bases node ch h1 h2 h3) h e1 e2 e3

/-- Appending surplus tokens to an accepted token list never makes
validation fail. -/
theorem validateTokens_extend (ts : List String) (c : String) (extra : List String)
    (h : validateTokens ts = .ok c) : ∃ c', validateTokens (ts ++ extra) = .ok c' := by
  rcases ts with _ | ⟨t0, ts1⟩
  · exact VResult.noConfusion (show VResult.crash = VResult.ok c from h)
  rcases ts1 with _ | ⟨t1, rest⟩
  · exact VResult.noConfusion (show VResult.crash = VResult.ok c from h)
  show ∃ c', validateTokens (t0 :: t1 :: (rest ++ extra)) = .ok c'
  unfold validateTokens at h ⊢
  have fill : ∀ i : Nat, (rest ++ extra).getD i "" = rest.getD i "" ∨ rest.getD i "" = "" := by
    intro i
    rcases Nat.lt_or_ge i rest.length with hi | hi
    · exact Or.inl (List.getD_append rest extra "" i hi)
    · exact Or.inr (List.getD_eq_default rest "" hi)
  exact validate_core_extend (pyLower t0) t1 (rest.getD 0 "") (rest.getD 1 "")
    (rest.getD 2 "") ((rest ++ extra).getD 0 "") ((rest ++ extra).getD 1 "")
    ((rest ++ extra).getD 2 "") c h (fill 0) (fill 1) (fill 2)

/-! ## Claim theorems -/

/-- C1: the claim states that dispatching `radio rx <n>` or
`radio tx <hex>` writes the canonical command to the transport and
returns after the write succeeds.  Evaluating `send_command` at the
failing inputs shows the code never calls the transport write for
either command class: the write trace stays empty and the result is
`('', '')`. -/
theorem c1_radio_rx_tx_write_never_issued :
    send_command "idle" "on" ⟨[], [], []⟩ "radio rx 0" =
      .ret (.pyStr "") (.pyStr "") ⟨[], [], []⟩ ∧
    send_command "idle" "on" ⟨[], [], []⟩ "radio tx 0" =
      .ret (.pyStr "") (.pyStr "") ⟨[], [], []⟩ := by decide

/-- C2: the claim states that a parameter token violating its
`ParameterSpec` always yields a `ValidationError`.  At depth four the
code instead drops the offending token silently: `mac get ch freq 99`
(with `99` outside `[0,71]`) validates successfully to the canonical
command `"mac get ch"`. -/
theorem c2_depth4_invalid_param_silently_dropped :
    validate_command "mac get ch freq 99" = .ok "mac get ch" := by decide

/-- C6: with `safe_mode = 'on'` (the default), dispatching
`sys eraseFW` or `sys factoryRESET` returns the failure `(False,
False)` and leaves the world — including the transport write trace —
completely untouched, whatever the device state. -/
theorem c6_safe_mode_blocks_destructive_commands :
    ∀ (st : String) (w : World),
      send_command st "on" w "sys eraseFW" = .ret .pyFalse .pyFalse w ∧
      send_command st "on" w "sys factoryRESET" = .ret .pyFalse .pyFalse w := by
  intro st w
  by_cases h : st = "error"
  · subst h
    exact ⟨rfl, rfl⟩
  · unfold send_command
    simp only [if_neg h]
    exact ⟨rfl, rfl⟩

/-- C8: the claim states canonicalization is idempotent.  The raw
command `mac get ch freq 5` is accepted with canonical string
`"mac get ch 5"` (the depth-four branch drops the `freq` subcommand),
and re-validating that canonical string yields the different string
`"mac get ch"`. -/
theorem c8_canonicalization_not_idempotent :
    validate_command "mac get ch freq 5" = .ok "mac get ch 5" ∧
    validate_command "mac get ch 5" = .ok "mac get ch" ∧
    ("mac get ch" : String) ≠ "mac get ch 5" := by decide

/-- C9: the claim states that an input with fewer than two
whitespace-separated tokens always fails with a clean
`ValidationError`.  The input `"sys "` contains a space, so it passes
the `' ' not in cmd` guard, splits to the single token `['sys']`, and
the unguarded `cmd_set[1]` raises an uncaught `IndexError` instead of
returning `False` (which the all-letter input `"sys"` does). -/
theorem c9_space_with_single_token_crashes :
    validate_command "sys " = .crash ∧ validate_command "sys" = .err := by decide

/-- C3 counterexample: `not_joined` is in the documented device-error
vocabulary, yet dispatching the non-special command `mac save` when the
device answers `not_joined` yields `('ok', 'not_joined')` — an `Ok`
result carrying the error code as payload — because `send_command`
only consults `err_status = ['invalid_param','busy','radio_err']`. -/
theorem c3_counterexample_not_joined_is_ok :
    "not_joined" ∈ response_codes ∧
    send_command "idle" "on" ⟨[], [.pyStr "not_joined"], []⟩ "mac save" =
      .ret (.pyStr "ok") (.pyStr "not_joined") ⟨[], [], ["mac save\r\n"]⟩ := by decide

/-- C3 (amended): for every dispatched command outside the six
special-cased classes, the response line is classified against the
local `err_status` list `['invalid_param', 'busy', 'radio_err']` — not
against the full documented device-error vocabulary: a line in that
list yields the failure `(False, line)`; the exact line `ok` yields
`('ok', '')`; any other line (including the other documented error
codes) yields `('ok', line)`. -/
theorem c3_response_classification (st sf : String) (w : World) (cmd s line : String)
    (rs : List PyV)
    (hst : st ≠ "error") (hv : validate_command cmd = .ok s)
    (h1 : pyStartsWith s "sys sleep" = false)
    (h2 : pyStartsWith s "sys reset" = false)
    (h3 : pyStartsWith s "sys eraseFW" = false)
    (h4 : pyStartsWith s "sys factoryRESET" = false)
    (h5 : pyStartsWith s "radio rx " = false)
    (h6 : pyStartsWith s "radio tx" = false)
    (hw : w.writeScript = []) (hr : w.readScript = .pyStr line :: rs) :
    (line ∈ err_status →
        send_command st sf w cmd =
          .ret .pyFalse (.pyStr line) ⟨[], rs, w.writes ++ [s ++ "\r\n"]⟩) ∧
    (line = "ok" →
        send_command st sf w cmd =
          .ret (.pyStr "ok") (.pyStr "") ⟨[], rs, w.writes ++ [s ++ "\r\n"]⟩) ∧
    (line ∉ err_status → line ≠ "ok" →
        send_command st sf w cmd =
          .ret (.pyStr "ok") (.pyStr line) ⟨[], rs, w.writes ++ [s ++ "\r\n"]⟩) := by
  have hpol := send_other_response_policy st sf w cmd s line rs hst hv h1 h2 h3 h4 h5 h6 hw hr
  refine ⟨?_, ?_, ?_⟩
  · intro hmem
    rw [hpol, if_pos hmem]
  · intro hok
    subst hok
    rw [hpol, if_neg (by decide), if_pos rfl]
  · intro hmem hok
    rw [hpol, if_neg hmem, if_neg hok]

/-- C3 witness: the amended classification applied to `mac save` with
the device answering `busy`. -/
theorem c3_response_classification_witness :
    send_command "idle" "on" ⟨[], [.pyStr "busy"], []⟩ "mac save" =
      .ret .pyFalse (.pyStr "busy") ⟨[], [], ["mac save\r\n"]⟩ := by
  have h := (c3_response_classification "idle" "on" ⟨[], [.pyStr "busy"], []⟩
      "mac save" "mac save" "busy" [] (by decide) (by decide) (by decide) (by decide)
      (by decide) (by decide) (by decide) (by decide) rfl rfl).1 (by decide)
  exact h

/-- C4 (amended): `get_device_config` issues `mac pause` first, but
never consults its result: for every world — in particular one where
the pause step fails — the write trace begins with `mac pause`
followed by `sys get ver`, the first of the read sequence's `get`
commands; there is no abort and no failure report. -/
theorem c4_pull_pause_result_unchecked :
    ∀ (st sf : String) (w : World), st ≠ "error" →
      ∃ δ, (get_device_config st sf w).2.writes =
        w.writes ++ "mac pause\r\n" :: "sys get ver\r\n" :: δ :=
  fun st sf w hst => get_device_config_first_writes st sf w hst

/-- C4 witness: the amended theorem applied in the `idle` state on the
empty-script world. -/
theorem c4_pull_pause_result_unchecked_witness :
    ∃ δ, (get_device_config "idle" "on" ⟨[], [], []⟩).2.writes =
      "mac pause\r\n" :: "sys get ver\r\n" :: δ := by
  have h := c4_pull_pause_result_unchecked "idle" "on" ⟨[], [], []⟩ (by decide)
  exact h

/-- C4 counterexample: in a run where `mac pause` fails (the device
answers `busy`, a recognized error status, so the step's result is
`(False, 'busy')`), `get_device_config` still issues the subsequent
`get` commands: the write trace continues with `sys get ver`. -/
theorem c4_counterexample_failed_pause_not_aborted :
    send_command "idle" "on" ⟨[], [.pyStr "busy"], []⟩ "mac pause" =
      .ret .pyFalse (.pyStr "busy") ⟨[], [], ["mac pause\r\n"]⟩ ∧
    ∃ δ, (get_device_config "idle" "on" ⟨[], [.pyStr "busy"], []⟩).2.writes =
      "mac pause\r\n" :: "sys get ver\r\n" :: δ := by
  constructor
  · decide
  · exact get_device_config_first_writes "idle" "on" ⟨[], [.pyStr "busy"], []⟩ (by decide)

/-- C5 counterexample: the radio setting `sf = sf13` fails validation
(`radio set sf sf13` is rejected), yet `put_device_config` returns
`True` — the code skips the transport block but still reaches its
trailing `return True`. -/
theorem c5_counterexample_invalid_config_returns_true :
    validate_command "radio set sf sf13" = .err ∧
    put_device_config [("sf", "sf13")] "idle" "on" ⟨[], [], []⟩ =
      (some true, ⟨[], [], []⟩) := by decide

/-- C5 (amended): `put_device_config` performs no transport write and
still returns `True` when some radio setting fails validation; a
failing `radio set` step stops the sequence at that step (fail-fast)
and skips `mac save` but the call still returns `True` when the
trailing `mac resume` succeeds; the result is `False` when `mac
resume` (or `mac pause`) fails even though every set step succeeded. -/
theorem c5_push_failure_reporting :
    (∀ (radio : List (String × String)) (st sf : String) (w : World),
        allValidRadio radio = false →
        put_device_config radio st sf w = (some true, w)) ∧
    put_device_config [("sf", "sf7"), ("bw", "125")] "idle" "on"
        ⟨[], [.pyStr "ok", .pyStr "busy"], []⟩ =
      (some true,
       ⟨[], [], ["mac pause\r\n", "radio set sf sf7\r\n", "mac resume\r\n"]⟩) ∧
    put_device_config [("sf", "sf7")] "idle" "on"
        ⟨[], [.pyStr "ok", .pyStr "ok", .pyStr "ok", .pyStr "busy"], []⟩ =
      (some false,
       ⟨[], [],
        ["mac pause\r\n", "radio set sf sf7\r\n", "mac save\r\n",
         "mac resume\r\n"]⟩) := by
  refine ⟨?_, by decide, by decide⟩
  intro radio st sf w h
  unfold put_device_config
  simp [h]

/-- C5 witness: the amended theorem applied at a concrete snapshot
whose `freq` value `1` is outside `[902000000, 928000000]`. -/
theorem c5_push_failure_reporting_witness :
    put_device_config [("freq", "1")] "idle" "on" ⟨[], [], []⟩ =
      (some true, ⟨[], [], []⟩) :=
  c5_push_failure_reporting.1 [("freq", "1")] "idle" "on" ⟨[], [], []⟩ (by decide)

/-- C7 counterexample: with the session in the `error` state,
`get_device_config` does not short-circuit with a state error — it
runs its whole sequence locally and returns an ordinary config object
(holding only the empty NVM slot), and `put_device_config` even
returns `True` for a snapshot that fails validation.  (No transport
write occurs in either call: the worlds are unchanged.) -/
theorem c7_counterexample_no_state_error_signal :
    get_device_config "error" "on" ⟨[], [], []⟩ =
      (some ⟨[("nvm", .pyStr "")], [], []⟩, ⟨[], [], []⟩) ∧
    put_device_config [("sf", "sf13")] "error" "on" ⟨[], [], []⟩ =
      (some true, ⟨[], [], []⟩) := by decide

/-- C10: surplus input tokens are silently discarded by the validator:
the result depends only on the first five whitespace-separated tokens;
appending extra tokens to an accepted command never turns it into a
validation failure; and the canonical command contains only the
validated prefix, e.g. `sys sleep 100 junk` canonicalizes to
`sys sleep 100`. -/
theorem c10_surplus_tokens_discarded :
    (∀ ts : List String, validateTokens ts = validateTokens (ts.take 5)) ∧
    (∀ (ts : List String) (c : String) (extra : List String),
        validateTokens ts = .ok c → ∃ c', validateTokens (ts ++ extra) = .ok c') ∧
    validate_command "sys sleep 100 junk" = .ok "sys sleep 100" :=
  ⟨validateTokens_take5,
   fun ts c extra h => validateTokens_extend ts c extra h,
   by decide⟩

/-- C10 witness: the surplus-token part applied to the accepted
command `sys reset` extended with a junk token. -/
theorem c10_surplus_tokens_discarded_witness :
    ∃ c', validateTokens (["sys", "reset"] ++ ["junk"]) = .ok c' :=
  c10_surplus_tokens_discarded.2.1 ["sys", "reset"] "sys reset" ["junk"] (by decide)

/-- C7 (amended): in the `error` state no transport write (indeed no
transport interaction at all) is performed by any of the three public
operations — `send_command` short-circuits to `(False, False)` and
both synchronizer sequences leave the world untouched — but only
`send_command` signals the failure; `get_device_config` returns an
ordinary (empty-slot) config object. -/
theorem c7_error_state_never_touches_transport :
    (∀ (sf : String) (w : World) (cmd : String),
        send_command "error" sf w cmd = .ret .pyFalse .pyFalse w) ∧
    (∀ (sf : String) (w : World),
        get_device_config "error" sf w =
          (some ⟨[("nvm", .pyStr "")], [], []⟩, w)) ∧
    (∀ (radio : List (String × String)) (sf : String) (w : World),
        (put_device_config radio "error" sf w).2 = w) := by
  refine ⟨fun _ _ _ => rfl, fun _ _ => rfl, ?_⟩
  intro radio sf w
  unfold put_device_config
  split <;> rfl

end RN2903
